import Mathlib

/-!
Shallow embedding of `src/watch_folder.py` (SignTool-Local watch-folder
signer).  The stateful Python class `WatchFolderSigner` is modelled by
explicit state passing: the mutable field `processed_files` (a Python
set of absolute paths) becomes a `Finset FsPath` threaded through each
operation, and every filesystem / subprocess side effect is recorded in
an explicit `Effect` trace.  Filesystem and subprocess outcomes that the
Python code observes (mkdir success, file existence, stat sizes, the
result of shutil.move, the signer subprocess result) are supplied by an
environment record `Env`, so each code path of the source is reachable
by choosing the environment.
-/

namespace WatchFolder

/-- A file name split as Python pathlib splits it: `stem` plus `suffix`
(the suffix includes the leading dot, e.g. suffix ".ipa").
`pathlib.Path.name` is the concatenation of the two. -/
structure FileName where
  stem : String
  ext : String
deriving DecidableEq, Repr

/-- `Path.name` in pathlib: stem followed by the suffix. -/
def FileName.name (f : FileName) : String := f.stem ++ f.ext

/-- An absolute filesystem path: the containing directory and the file
name.  Paths in the model are already resolved, mirroring the source,
which resolves every path on entry (`Path(...).resolve()`). -/
structure FsPath where
  dir : String
  base : FileName
deriving DecidableEq, Repr

/-- `str(path)` for a resolved path. -/
def FsPath.render (p : FsPath) : String := p.dir ++ "/" ++ p.base.name

/-- Outcome of one `shutil.move(src, dest)` call as the Python code can
observe it: success, `FileNotFoundError`, or any other exception. -/
inductive MoveRes
  | ok
  | fileNotFound
  | otherErr (msg : String)
deriving DecidableEq, Repr

/-- Outcome of the `subprocess.run` call as the Python code can observe
it: normal exit with a return code and captured streams,
`subprocess.TimeoutExpired`, or any other exception. -/
inductive SubprocOutcome
  | exited (code : Int) (stdoutS stderrS : String)
  | timedOut
  | raisedErr (msg : String)
deriving DecidableEq, Repr

/-- One observable side effect of the program, in program order. -/
inductive Effect
  | log (level msg : String)
  | mkdir (folder : String)
  | resolveAttempt
  | spawn (cmd : List String) (timeoutSecs : Nat)
  | sleepMs (ms : Nat)
  | statSize (p : FsPath)
  | fsMove (src dest : FsPath)
deriving DecidableEq, Repr

/-- The configuration fields of `WatchFolderSigner.__init__` that the
modelled operations read.  `poll_interval_ms` is the poll interval in
milliseconds (the source default 2.0 seconds is 2000). -/
structure SignerCfg where
  watch_folder : String
  output_folder : String
  profile : String
  sign_args : String
  bundle_id : Option String
  processed_folder : Option String
  failed_folder : Option String
  poll_interval_ms : Nat
deriving Repr

/-- The environment: every answer the filesystem, the executable search
and the signer subprocess can give to the Python code. -/
structure Env where
  /-- Result of `find_sign_tools` (`None` when no executable is found). -/
  findSignTools : Option String
  /-- Whether `folder.mkdir(parents=True, exist_ok=True)` succeeds. -/
  mkdirOk : String → Bool
  /-- Whether `path.exists()` is true at observation time. -/
  fileExists : FsPath → Bool
  /-- Result of `shutil.move(src, dest)`. -/
  moveRes : FsPath → FsPath → MoveRes
  /-- `datetime.now().strftime("%Y%m%d_%H%M%S")` at collision time. -/
  timestamp : String
  /-- Result of the `subprocess.run` invocation of the signer. -/
  subproc : SubprocOutcome
  /-- `path.stat().st_size` at the first stability read (`none` when the
  call raises `OSError` / `FileNotFoundError`). -/
  statBefore : FsPath → Option Nat
  /-- `path.stat().st_size` at the second stability read. -/
  statAfter : FsPath → Option Nat
  /-- Whether `self.watch_folder.exists()` at the start of a scan. -/
  watchExists : Bool
  /-- The resolved `*.ipa` regular files the glob finds, in glob order. -/
  ipaFiles : List FsPath

/-- Python truthiness of an optional string (`if self.bundle_id:`):
`None` and the empty string are falsy. -/
def optStrTruthy : Option String → Bool
  | none => false
  | some s => s != ""

/-- `WatchFolderSigner.move_file` (src/watch_folder.py lines 244-293).
Moves `file_path` into `dest_folder`, or only releases the claim when no
destination is configured.  Returns the Python return value, the updated
`processed_files` set, and the emitted effects.  `Effect.mkdir` records
the creation attempt whether or not it succeeds. -/
def move_file (env : Env) (processed_files : Finset FsPath)
    (file_path : FsPath) (dest_folder : Option String) :
    Bool × Finset FsPath × List Effect :=
  match dest_folder with
  | none =>
      -- no destination folder: discard from processed_files, return True
      (true, processed_files.erase file_path, [])
  | some dest =>
      if env.mkdirOk dest then
        if env.fileExists file_path then
          let dest0 : FsPath := ⟨dest, file_path.base⟩
          let dest_path : FsPath :=
            if env.fileExists dest0 then
              ⟨dest, ⟨file_path.base.stem ++ "_" ++ env.timestamp,
                      file_path.base.ext⟩⟩
            else dest0
          match env.moveRes file_path dest_path with
          | MoveRes.ok =>
              (true, processed_files.erase file_path,
                [Effect.mkdir dest, Effect.fsMove file_path dest_path,
                 Effect.log "INFO" "Moved file"])
          | MoveRes.fileNotFound =>
              (true, processed_files.erase file_path,
                [Effect.mkdir dest,
                 Effect.log "WARN" "File not found (may have been deleted)"])
          | MoveRes.otherErr msg =>
              (false, processed_files.erase file_path,
                [Effect.mkdir dest,
                 Effect.log "ERROR" ("Failed to move: " ++ msg)])
        else
          -- source vanished before the move: treated as success
          (true, processed_files.erase file_path,
            [Effect.mkdir dest, Effect.log "WARN" "File no longer exists"])
      else
        -- lines 256-260: mkdir failed; return False with NO discard
        (false, processed_files,
          [Effect.mkdir dest,
           Effect.log "ERROR" "Failed to create destination folder"])

/-- The output path computed by `sign_ipa` (lines 154-156):
`output_folder / (stem + "_signed.ipa")`. -/
def output_path_of (cfg : SignerCfg) (abs_ipa_path : FsPath) : FsPath :=
  ⟨cfg.output_folder, ⟨abs_ipa_path.base.stem ++ "_signed", ".ipa"⟩⟩

/-- The signer command list built by `sign_ipa` (lines 182-195): the
fixed part, then `-args` when `self.sign_args` is truthy (non-empty),
then `-bundle-id` when `self.bundle_id` is truthy (present and
non-empty). -/
def buildCmd (sign_tools : String) (cfg : SignerCfg)
    (abs_ipa_path output_path : FsPath) : List String :=
  [sign_tools, "-headless",
   "-ipa", abs_ipa_path.render,
   "-profile", cfg.profile,
   "-output", output_path.render]
  ++ (if cfg.sign_args != "" then ["-args", cfg.sign_args] else [])
  ++ (match cfg.bundle_id with
      | some b => if b != "" then ["-bundle-id", b] else []
      | none => [])

/-- The shared failure tail of `sign_ipa`: move to the failed folder
when one is configured, otherwise discard the claim (the pattern at
lines 176-179, 220-224, 229-233, 237-241). -/
def failPath (cfg : SignerCfg) (env : Env) (processed_files : Finset FsPath)
    (abs_ipa_path : FsPath) : Finset FsPath × List Effect :=
  match cfg.failed_folder with
  | some ff =>
      let r := move_file env processed_files abs_ipa_path (some ff)
      (r.2.1, r.2.2)
  | none => (processed_files.erase abs_ipa_path, [])

/-- `WatchFolderSigner.sign_ipa` (src/watch_folder.py lines 143-242).
Returns the Python return value, the updated `processed_files`, and the
effect trace.  `ipa_path` is modelled as already resolved, so the
`resolve()` at line 146 is the identity. -/
def sign_ipa (cfg : SignerCfg) (env : Env) (processed_files : Finset FsPath)
    (ipa_path : FsPath) : Bool × Finset FsPath × List Effect :=
  let abs_ipa_path := ipa_path
  if abs_ipa_path ∈ processed_files then
    (false, processed_files, [])
  else
    let pf1 := insert abs_ipa_path processed_files
    let effs0 := [Effect.log "INFO" "Processing", Effect.resolveAttempt]
    let output_path := output_path_of cfg abs_ipa_path
    match env.findSignTools with
    | none =>
        let r := failPath cfg env pf1 abs_ipa_path
        (false, r.1,
          effs0 ++ [Effect.log "ERROR" "SignTools executable not found"]
                ++ r.2)
    | some sign_tools =>
        let cmd := buildCmd sign_tools cfg abs_ipa_path output_path
        let effs1 := effs0 ++ [Effect.log "INFO" "Running",
                               Effect.spawn cmd 1800]
        match env.subproc with
        | SubprocOutcome.exited code outS errS =>
            if code = 0 then
              match cfg.processed_folder with
              | some pfold =>
                  let r := move_file env pf1 abs_ipa_path (some pfold)
                  (true, r.2.1,
                    effs1 ++ [Effect.log "INFO" "Successfully signed"]
                          ++ r.2.2)
              | none =>
                  (true, pf1.erase abs_ipa_path,
                    effs1 ++ [Effect.log "INFO" "Successfully signed"])
            else
              let r := failPath cfg env pf1 abs_ipa_path
              (false, r.1,
                effs1 ++ [Effect.log "ERROR" ("Signing failed: " ++ errS),
                          Effect.log "ERROR" ("Output: " ++ outS)]
                      ++ r.2)
        | SubprocOutcome.timedOut =>
            let r := failPath cfg env pf1 abs_ipa_path
            (false, r.1,
              effs1 ++ [Effect.log "ERROR" "Signing timed out"] ++ r.2)
        | SubprocOutcome.raisedErr msg =>
            let r := failPath cfg env pf1 abs_ipa_path
            (false, r.1,
              effs1 ++ [Effect.log "ERROR" ("Error signing: " ++ msg)]
                    ++ r.2)

/-- The per-candidate body of the `scan_and_process` loop
(src/watch_folder.py lines 305-324): skip a claimed path, run the
double-read stability check (a 0.5 second sleep between the two stat
calls), skip on size change or on a stat exception, and otherwise hand
the file to `sign_ipa`. -/
def scan_candidate (cfg : SignerCfg) (env : Env)
    (processed_files : Finset FsPath) (ipa_file : FsPath) :
    Finset FsPath × List Effect :=
  if ipa_file ∈ processed_files then
    (processed_files, [])
  else
    match env.statBefore ipa_file with
    | none =>
        -- first stat raised: skip, the sleep is never reached
        (processed_files, [Effect.statSize ipa_file])
    | some size_before =>
        match env.statAfter ipa_file with
        | none =>
            (processed_files,
              [Effect.statSize ipa_file, Effect.sleepMs 500,
               Effect.statSize ipa_file])
        | some size_after =>
            if size_before ≠ size_after then
              (processed_files,
                [Effect.statSize ipa_file, Effect.sleepMs 500,
                 Effect.statSize ipa_file])
            else
              let r := sign_ipa cfg env processed_files ipa_file
              (r.2.1,
                [Effect.statSize ipa_file, Effect.sleepMs 500,
                 Effect.statSize ipa_file] ++ r.2.2)

/-- `WatchFolderSigner.scan_and_process` (src/watch_folder.py lines
295-324): return early with an error log when the watch folder is
missing, otherwise run every glob candidate through `scan_candidate`
sequentially. -/
def scan_and_process (cfg : SignerCfg) (env : Env)
    (processed_files : Finset FsPath) : Finset FsPath × List Effect :=
  if env.watchExists then
    List.foldl
      (fun acc f =>
        let r := scan_candidate cfg env acc.1 f
        (r.1, acc.2 ++ r.2))
      (processed_files, ([] : List Effect))
      env.ipaFiles
  else
    (processed_files, [Effect.log "ERROR" "Watch folder does not exist"])

/-- The directory creations performed eagerly by
`WatchFolderSigner.__init__` (src/watch_folder.py lines 47-53), in
order: watch folder, output folder, then the processed and failed
folders when configured. -/
def init_effects (cfg : SignerCfg) : List Effect :=
  [Effect.mkdir cfg.watch_folder, Effect.mkdir cfg.output_folder]
  ++ (match cfg.processed_folder with
      | some p => [Effect.mkdir p]
      | none => [])
  ++ (match cfg.failed_folder with
      | some f => [Effect.mkdir f]
      | none => [])

/-- The startup phase of `WatchFolderSigner.run` (lines 328-355): one
eager `find_sign_tools` resolution; a `RuntimeError` (modelled as
`Except.error`, which propagates out of `main` so the process exits
non-zero) when it fails, the startup banner otherwise. -/
def run_startup (env : Env) : Except String String × List Effect :=
  match env.findSignTools with
  | none =>
      (Except.error "SignTools executable not found",
        [Effect.resolveAttempt,
         Effect.log "ERROR" "SignTools executable not found at startup"])
  | some st =>
      (Except.ok st,
        [Effect.resolveAttempt,
         Effect.log "INFO" "Starting Watch Folder Signer"])

/-- `n` iterations of the polling loop body (lines 358-360): a scan
followed by the inter-cycle sleep. -/
def loop_cycles (cfg : SignerCfg) (env : Env) :
    Nat → Finset FsPath → Finset FsPath × List Effect
  | 0, pf => (pf, [])
  | n + 1, pf =>
      let r := scan_and_process cfg env pf
      let rest := loop_cycles cfg env n r.1
      (rest.1, r.2 ++ [Effect.sleepMs cfg.poll_interval_ms] ++ rest.2)

/-- `WatchFolderSigner.run` truncated to `n` polling cycles: the
startup resolution, then (only when it succeeded) the loop.  `pf0` is
the `processed_files` state on entry (the constructor makes it empty). -/
def run_bounded (cfg : SignerCfg) (env : Env) (n : Nat)
    (pf0 : Finset FsPath) : Except String (Finset FsPath) × List Effect :=
  match run_startup env with
  | (Except.error e, effs) => (Except.error e, effs)
  | (Except.ok _, effs) =>
      let r := loop_cycles cfg env n pf0
      (Except.ok r.1, effs ++ r.2)

/-- Construction followed by `run`, truncated to `n` cycles: the eager
directory creations of `__init__`, then `run` starting from an empty
`processed_files` set. -/
def program_bounded (cfg : SignerCfg) (env : Env) (n : Nat) :
    Except String (Finset FsPath) × List Effect :=
  let r := run_bounded cfg env n (∅ : Finset FsPath)
  (r.1, init_effects cfg ++ r.2)

/-- `true` when the effect trace contains a filesystem move onto a
destination path that exists in `env` — i.e. a move that overwrites an
existing destination file (`shutil.move` replaces an existing
destination file). -/
def overwrites (env : Env) (effs : List Effect) : Bool :=
  effs.any fun e =>
    match e with
    | Effect.fsMove _ dest => env.fileExists dest
    | _ => false

/-- `true` when the effect trace contains a filesystem move whose
destination lies in `folder`. -/
def movedInto (folder : String) (effs : List Effect) : Bool :=
  effs.any fun e =>
    match e with
    | Effect.fsMove _ dest => dest.dir == folder
    | _ => false

/-! ### Concrete fixtures for counterexamples and witnesses -/

/-- A sample resolved candidate file, `/watch/app.ipa`. -/
def appIpa : FsPath := ⟨"/watch", ⟨"app", ".ipa"⟩⟩

/-- A sample configuration with processed and failed folders set. -/
def cfg0 : SignerCfg :=
  ⟨"/watch", "/out", "dev", "", none, some "/processed", some "/failed", 2000⟩

/-- A fully cooperative environment: the executable resolves, every
mkdir and move succeeds, only `/watch/app.ipa` exists, the signer exits
with code 0, and sizes are stable. -/
def env0 : Env :=
  ⟨some "/opt/SignTools",
   fun _ => true,
   fun p => p == appIpa,
   fun _ _ => MoveRes.ok,
   "20260101_120000",
   SubprocOutcome.exited 0 "" "",
   fun _ => some 100,
   fun _ => some 100,
   true,
   [appIpa]⟩

/-- Like `env0` but every directory creation fails. -/
def envMkdirFail : Env := { env0 with mkdirOk := fun _ => false }

/-- Like `env0` but every `shutil.move` raises a generic exception. -/
def envMoveErr : Env :=
  { env0 with moveRes := fun _ _ => MoveRes.otherErr "disk full" }

/-- Like `env0` but the destination folder already holds both
`app.ipa` and the timestamped `app_20260101_120000.ipa`. -/
def envDoubleCollision : Env :=
  { env0 with fileExists := fun p =>
      p == appIpa
      || p == (⟨"/processed", ⟨"app", ".ipa"⟩⟩ : FsPath)
      || p == (⟨"/processed", ⟨"app_20260101_120000", ".ipa"⟩⟩ : FsPath) }

/-- A configuration whose bundle id is present but empty. -/
def cfgEmptyBundle : SignerCfg :=
  ⟨"/watch", "/out", "dev", "", some "", none, none, 2000⟩

/-- A configuration with non-empty extra arguments and bundle id. -/
def cfgFull : SignerCfg :=
  ⟨"/watch", "/out", "dev", "-a -d", some "com.example.app",
   some "/processed", some "/failed", 2000⟩

/-- Like `env0` but the file grows between the two stability reads. -/
def envGrow : Env :=
  { env0 with statBefore := fun _ => some 100, statAfter := fun _ => some 200 }

/-- Like `env0` but the second stability read raises. -/
def envVanish : Env := { env0 with statAfter := fun _ => none }

/-- Like `env0` but no file exists at all. -/
def envGone : Env := { env0 with fileExists := fun _ => false }

/-- Like `env0` but `shutil.move` raises `FileNotFoundError`. -/
def envFNF : Env := { env0 with moveRes := fun _ _ => MoveRes.fileNotFound }

/-- Like `env0` but no signer executable is resolvable. -/
def envNoTools : Env := { env0 with findSignTools := none }

/-- Like `env0` but the watch folder is missing. -/
def envNoWatch : Env := { env0 with watchExists := false }

/-- The timestamped destination produced by the double collision of
`envDoubleCollision`. -/
def tsDest : FsPath := ⟨"/processed", ⟨"app_20260101_120000", ".ipa"⟩⟩

/-! ### Helper lemmas -/

/-- Appending a non-empty tail after an underscore changes a string. -/
theorem append_underscore_ne (s t : String) : s ++ "_" ++ t ≠ s := by
  intro h
  have hl := congrArg String.length h
  have h1 : ("_" : String).length = 1 := rfl
  simp only [String.length_append, h1] at hl
  omega

/-- `move_file` never spawns a subprocess: its effect trace holds no
`Effect.spawn`. -/
theorem move_file_spawn_free
    (env : Env) (pf : Finset FsPath) (p : FsPath) (dfo : Option String)
    (c : List String) (t : Nat) :
    Effect.spawn c t ∉ (move_file env pf p dfo).2.2 := by
  rcases dfo with _ | dst
  · simp [move_file]
  · simp only [move_file]
    split
    · split
      · split <;> simp
      · simp
    · simp

/-- The failure-routing tail of `sign_ipa` never spawns a subprocess. -/
theorem failPath_spawn_free
    (cfg : SignerCfg) (env : Env) (pf : Finset FsPath) (p : FsPath)
    (c : List String) (t : Nat) :
    Effect.spawn c t ∉ (failPath cfg env pf p).2 := by
  rcases h : cfg.failed_folder with _ | ff
  · simp [failPath, h]
  · simp only [failPath, h]
    exact move_file_spawn_free env pf p (some ff) c t

/-- On a fresh claim with a resolvable executable, the one and only
subprocess spawned by `sign_ipa` runs `buildCmd` with timeout 1800. -/
theorem sign_ipa_spawn_iff
    (cfg : SignerCfg) (env : Env) (pf : Finset FsPath) (p : FsPath)
    (st : String)
    (hnp : p ∉ pf) (hfind : env.findSignTools = some st)
    (c : List String) (t : Nat) :
    Effect.spawn c t ∈ (sign_ipa cfg env pf p).2.2
      ↔ (c = buildCmd st cfg p (output_path_of cfg p) ∧ t = 1800) := by
  simp only [sign_ipa, hfind]
  rw [if_neg hnp]
  rcases hsub : env.subproc with ⟨code, outS, errS⟩ | _ | msg
  · by_cases hc : code = 0
    · subst hc
      rcases hproc : cfg.processed_folder with _ | pfold
      · simp [hproc]
      · simp [hproc, move_file_spawn_free env (insert p pf) p (some pfold) c t]
    · simp [hc, failPath_spawn_free cfg env (insert p pf) p c t]
  · simp [failPath_spawn_free cfg env (insert p pf) p c t]
  · simp [failPath_spawn_free cfg env (insert p pf) p c t]

/-! ### Claims -/

/-- Claim C1: the spec states that every move failure releases the
claim on the source path, so that a file whose destination folder
cannot be created is reconsidered next cycle.  The code violates this:
when `dest_folder.mkdir` raises (lines 256-260), `move_file` returns
False WITHOUT discarding the path from `processed_files`, so the file
stays claimed forever and is never retried.  This theorem evaluates the
embedded code at the failing input: destination `/failed` whose
creation fails, source `/watch/app.ipa` claimed. -/
theorem c1_mkdir_failure_keeps_claim :
    (move_file envMkdirFail (insert appIpa (∅ : Finset FsPath)) appIpa
        (some "/failed")).1 = false
    ∧ appIpa ∈ (move_file envMkdirFail (insert appIpa (∅ : Finset FsPath))
        appIpa (some "/failed")).2.1 := by
  decide

/-- Claim C4: a path already present in `processed_files` is never
dispatched again until released: `sign_ipa` returns False immediately
with no spawn and no state change, and the scan loop body skips the
candidate with no side effects (empty effect trace). -/
theorem c4_claimed_path_skipped
    (cfg : SignerCfg) (env : Env) (pf : Finset FsPath) (p : FsPath)
    (h : p ∈ pf) :
    sign_ipa cfg env pf p = (false, pf, [])
    ∧ scan_candidate cfg env pf p = (pf, []) := by
  constructor
  · simp [sign_ipa, h]
  · simp [scan_candidate, h]

/-- Witness for C4 at `/watch/app.ipa` already claimed. -/
theorem c4_witness :
    sign_ipa cfg0 env0 (insert appIpa (∅ : Finset FsPath)) appIpa
      = (false, insert appIpa (∅ : Finset FsPath), [])
    ∧ scan_candidate cfg0 env0 (insert appIpa (∅ : Finset FsPath)) appIpa
      = (insert appIpa (∅ : Finset FsPath), []) :=
  c4_claimed_path_skipped cfg0 env0 (insert appIpa (∅ : Finset FsPath))
    appIpa (by decide)

/-- Claim C7: when the source file no longer exists at move time,
`move_file` treats the move as already successful: it returns True and
releases the claim, raising no error.  Both code paths are covered: the
explicit existence check (lines 266-270) and a `FileNotFoundError`
raised by `shutil.move` itself (lines 283-287). -/
theorem c7_vanished_source_is_success
    (env : Env) (pf : Finset FsPath) (p : FsPath) (d : String)
    (hmk : env.mkdirOk d = true) :
    (env.fileExists p = false →
       (move_file env pf p (some d)).1 = true
       ∧ (move_file env pf p (some d)).2.1 = pf.erase p)
    ∧ (env.fileExists p = true →
       (∀ q, env.moveRes p q = MoveRes.fileNotFound) →
       (move_file env pf p (some d)).1 = true
       ∧ (move_file env pf p (some d)).2.1 = pf.erase p) := by
  constructor
  · intro hex
    simp [move_file, hmk, hex]
  · intro hex hmv
    simp [move_file, hmk, hex, hmv]

/-- Witness for C7: the vanished-source branch under `envGone` and the
`FileNotFoundError` branch under `envFNF`. -/
theorem c7_witness :
    ((move_file envGone (∅ : Finset FsPath) appIpa (some "/processed")).1 = true
     ∧ (move_file envGone (∅ : Finset FsPath) appIpa (some "/processed")).2.1
        = (∅ : Finset FsPath).erase appIpa)
    ∧ ((move_file envFNF (∅ : Finset FsPath) appIpa (some "/processed")).1 = true
     ∧ (move_file envFNF (∅ : Finset FsPath) appIpa (some "/processed")).2.1
        = (∅ : Finset FsPath).erase appIpa) :=
  ⟨(c7_vanished_source_is_success envGone (∅ : Finset FsPath) appIpa
      "/processed" (by decide)).1 (by decide),
   (c7_vanished_source_is_success envFNF (∅ : Finset FsPath) appIpa
      "/processed" (by decide)).2 (by decide) (fun _ => rfl)⟩

/-- Claim C10: when the watch folder does not exist at the start of a
scan, `scan_and_process` only logs an error and returns with the claim
set untouched (the embedding is total, mirroring the early `return`
at lines 297-299, so nothing propagates), and the polling loop keeps
running: `n` further cycles leave the state unchanged and emit only the
error log and the inter-cycle sleep each cycle. -/
theorem c10_missing_watch_folder
    (cfg : SignerCfg) (env : Env) (pf : Finset FsPath) (n : Nat)
    (hw : env.watchExists = false) :
    scan_and_process cfg env pf
      = (pf, [Effect.log "ERROR" "Watch folder does not exist"])
    ∧ loop_cycles cfg env n pf
      = (pf, List.flatten (List.replicate n
          [Effect.log "ERROR" "Watch folder does not exist",
           Effect.sleepMs cfg.poll_interval_ms])) := by
  have hscan : scan_and_process cfg env pf
      = (pf, [Effect.log "ERROR" "Watch folder does not exist"]) := by
    simp [scan_and_process, hw]
  refine ⟨hscan, ?_⟩
  induction n with
  | zero => simp [loop_cycles]
  | succ k ih =>
      simp [loop_cycles, scan_and_process, hw, List.replicate_succ] at ih ⊢
      simp [ih]

/-- Witness for C10 under `envNoWatch`, two cycles. -/
theorem c10_witness :
    scan_and_process cfg0 envNoWatch (∅ : Finset FsPath)
      = ((∅ : Finset FsPath),
         [Effect.log "ERROR" "Watch folder does not exist"])
    ∧ loop_cycles cfg0 envNoWatch 2 (∅ : Finset FsPath)
      = ((∅ : Finset FsPath), List.flatten (List.replicate 2
          [Effect.log "ERROR" "Watch folder does not exist",
           Effect.sleepMs cfg0.poll_interval_ms])) :=
  c10_missing_watch_folder cfg0 envNoWatch (∅ : Finset FsPath) 2 (by decide)

/-- Claim C6: the stability check reads the size, sleeps 500 ms, and
reads again.  When the reads differ the candidate is skipped with no
claim and no error; when the file disappears between the reads (the
second stat raises) it is likewise skipped; only two equal readings
proceed to `sign_ipa`.  The effect trace shows the two reads separated
by the 500 ms sleep in every case. -/
theorem c6_stability_check
    (cfg : SignerCfg) (env : Env) (pf : Finset FsPath) (f : FsPath)
    (hnp : f ∉ pf) :
    (∀ s1 s2, env.statBefore f = some s1 → env.statAfter f = some s2 →
       s1 ≠ s2 →
       scan_candidate cfg env pf f
         = (pf, [Effect.statSize f, Effect.sleepMs 500, Effect.statSize f]))
    ∧ (∀ s1, env.statBefore f = some s1 → env.statAfter f = none →
       scan_candidate cfg env pf f
         = (pf, [Effect.statSize f, Effect.sleepMs 500, Effect.statSize f]))
    ∧ (∀ s, env.statBefore f = some s → env.statAfter f = some s →
       scan_candidate cfg env pf f
         = ((sign_ipa cfg env pf f).2.1,
            [Effect.statSize f, Effect.sleepMs 500, Effect.statSize f]
              ++ (sign_ipa cfg env pf f).2.2)) := by
  refine ⟨?_, ?_, ?_⟩
  · intro s1 s2 hb ha hne
    simp [scan_candidate, hnp, hb, ha, hne]
  · intro s1 hb ha
    simp [scan_candidate, hnp, hb, ha]
  · intro s hb ha
    simp [scan_candidate, hnp, hb, ha]

/-- Witness for C6: a growing file under `envGrow`, a vanishing file
under `envVanish`, and a stable file under `env0`. -/
theorem c6_witness :
    scan_candidate cfg0 envGrow (∅ : Finset FsPath) appIpa
      = ((∅ : Finset FsPath),
         [Effect.statSize appIpa, Effect.sleepMs 500, Effect.statSize appIpa])
    ∧ scan_candidate cfg0 envVanish (∅ : Finset FsPath) appIpa
      = ((∅ : Finset FsPath),
         [Effect.statSize appIpa, Effect.sleepMs 500, Effect.statSize appIpa])
    ∧ scan_candidate cfg0 env0 (∅ : Finset FsPath) appIpa
      = ((sign_ipa cfg0 env0 (∅ : Finset FsPath) appIpa).2.1,
         [Effect.statSize appIpa, Effect.sleepMs 500, Effect.statSize appIpa]
           ++ (sign_ipa cfg0 env0 (∅ : Finset FsPath) appIpa).2.2) :=
  ⟨(c6_stability_check cfg0 envGrow (∅ : Finset FsPath) appIpa
      (by decide)).1 100 200 rfl rfl (by decide),
   (c6_stability_check cfg0 envVanish (∅ : Finset FsPath) appIpa
      (by decide)).2.1 100 rfl rfl,
   (c6_stability_check cfg0 env0 (∅ : Finset FsPath) appIpa
      (by decide)).2.2 100 rfl rfl⟩

/-- Claim C8: the startup phase of `run` performs exactly one eager
executable resolution, and when it fails the process aborts before the
loop: for every cycle budget `n`, `run_bounded` returns the fatal
`RuntimeError` (which propagates out of `main`, a non-zero exit) and
its whole trace is just the startup failure trace — no scan, no sleep,
no claim-set state is ever produced. -/
theorem c8_startup_resolution
    (cfg : SignerCfg) (env : Env) :
    (run_startup env).2.count Effect.resolveAttempt = 1
    ∧ (env.findSignTools = none →
        ∀ n pf0, run_bounded cfg env n pf0
          = (Except.error "SignTools executable not found",
             [Effect.resolveAttempt,
              Effect.log "ERROR" "SignTools executable not found at startup"])) := by
  constructor
  · cases h : env.findSignTools <;> simp [run_startup, h]
  · intro hnone n pf0
    simp [run_bounded, run_startup, hnone]

/-- Witness for C8 under `envNoTools` with a budget of two cycles. -/
theorem c8_witness :
    (run_startup envNoTools).2.count Effect.resolveAttempt = 1
    ∧ run_bounded cfg0 envNoTools 2 (∅ : Finset FsPath)
      = (Except.error "SignTools executable not found",
         [Effect.resolveAttempt,
          Effect.log "ERROR" "SignTools executable not found at startup"]) :=
  ⟨(c8_startup_resolution cfg0 envNoTools).1,
   (c8_startup_resolution cfg0 envNoTools).2 rfl 2 (∅ : Finset FsPath)⟩

/-- Claim C9: construction eagerly creates the watch folder, the output
folder, and the processed and failed folders when configured — and in
the whole program these creations precede everything `run` does (the
program trace is the `__init__` effects followed by the `run` trace),
in particular every scan cycle. -/
theorem c9_init_creates_folders
    (cfg : SignerCfg) (env : Env) (n : Nat) :
    Effect.mkdir cfg.watch_folder ∈ init_effects cfg
    ∧ Effect.mkdir cfg.output_folder ∈ init_effects cfg
    ∧ (∀ p, cfg.processed_folder = some p →
        Effect.mkdir p ∈ init_effects cfg)
    ∧ (∀ f, cfg.failed_folder = some f →
        Effect.mkdir f ∈ init_effects cfg)
    ∧ (program_bounded cfg env n).2
        = init_effects cfg ++ (run_bounded cfg env n (∅ : Finset FsPath)).2 := by
  refine ⟨?_, ?_, ?_, ?_, rfl⟩
  · simp [init_effects]
  · simp [init_effects]
  · intro p hp
    simp [init_effects, hp]
  · intro f hf
    simp [init_effects, hf]

/-- Witness for C9 at `cfg0` (both optional folders configured). -/
theorem c9_witness :
    Effect.mkdir cfg0.watch_folder ∈ init_effects cfg0
    ∧ Effect.mkdir cfg0.output_folder ∈ init_effects cfg0
    ∧ Effect.mkdir "/processed" ∈ init_effects cfg0
    ∧ Effect.mkdir "/failed" ∈ init_effects cfg0
    ∧ (program_bounded cfg0 env0 1).2
        = init_effects cfg0 ++ (run_bounded cfg0 env0 1 (∅ : Finset FsPath)).2 :=
  ⟨(c9_init_creates_folders cfg0 env0 1).1,
   (c9_init_creates_folders cfg0 env0 1).2.1,
   (c9_init_creates_folders cfg0 env0 1).2.2.1 "/processed" rfl,
   (c9_init_creates_folders cfg0 env0 1).2.2.2.1 "/failed" rfl,
   (c9_init_creates_folders cfg0 env0 1).2.2.2.2⟩

/-- Claim C2, counterexample: the claim promises that after a
zero-exit signer run with a processed folder configured, the source
file IS moved into the processed folder.  Under `envMoveErr` the signer
exits 0 and the processed folder is configured, yet `shutil.move`
raises, so no move into `/processed` happens (no such move effect is in
the trace) even though `sign_ipa` still returns True. -/
theorem c2_move_error_file_not_moved :
    cfg0.processed_folder = some "/processed"
    ∧ envMoveErr.subproc = SubprocOutcome.exited 0 "" ""
    ∧ (sign_ipa cfg0 envMoveErr (∅ : Finset FsPath) appIpa).1 = true
    ∧ movedInto "/processed"
        (sign_ipa cfg0 envMoveErr (∅ : Finset FsPath) appIpa).2.2 = false := by
  decide

/-- Claim C2 (amended): after a zero-exit signer run with a processed
folder configured, provided the processed folder can be created, the
source still exists, and the underlying move succeeds, the source file
is moved into the processed folder and its path is removed from
`processed_files`. -/
theorem c2_success_move_releases_claim
    (cfg : SignerCfg) (env : Env) (pf : Finset FsPath) (p : FsPath)
    (pfold st outS errS : String)
    (hnp : p ∉ pf)
    (hfind : env.findSignTools = some st)
    (hsub : env.subproc = SubprocOutcome.exited 0 outS errS)
    (hproc : cfg.processed_folder = some pfold)
    (hmk : env.mkdirOk pfold = true)
    (hex : env.fileExists p = true)
    (hmv : ∀ q, env.moveRes p q = MoveRes.ok) :
    (sign_ipa cfg env pf p).1 = true
    ∧ p ∉ (sign_ipa cfg env pf p).2.1
    ∧ movedInto pfold (sign_ipa cfg env pf p).2.2 = true := by
  by_cases hcol : env.fileExists ⟨pfold, p.base⟩ = true
  · simp [sign_ipa, hnp, hfind, hsub, hproc, move_file, hmk, hex, hcol, hmv,
          movedInto, Finset.not_mem_erase]
  · simp only [Bool.not_eq_true] at hcol
    simp [sign_ipa, hnp, hfind, hsub, hproc, move_file, hmk, hex, hcol, hmv,
          movedInto, Finset.not_mem_erase]

/-- Witness for C2 under the fully cooperative `env0`. -/
theorem c2_witness :
    (sign_ipa cfg0 env0 (∅ : Finset FsPath) appIpa).1 = true
    ∧ appIpa ∉ (sign_ipa cfg0 env0 (∅ : Finset FsPath) appIpa).2.1
    ∧ movedInto "/processed"
        (sign_ipa cfg0 env0 (∅ : Finset FsPath) appIpa).2.2 = true :=
  c2_success_move_releases_claim cfg0 env0 (∅ : Finset FsPath) appIpa
    "/processed" "/opt/SignTools" "" ""
    (by decide) rfl rfl rfl rfl (by decide) (fun _ => rfl)

/-- Claim C3, counterexample: the claim promises that a move into a
folder already holding a same-named file never overwrites any existing
destination file.  Under `envDoubleCollision` the destination holds
both `app.ipa` and the timestamped `app_20260101_120000.ipa`; the code
picks the timestamped name without re-checking it, and the resulting
`shutil.move` lands on an existing file, overwriting it. -/
theorem c3_timestamped_collision_overwrites :
    envDoubleCollision.fileExists (⟨"/processed", ⟨"app", ".ipa"⟩⟩ : FsPath)
        = true
    ∧ overwrites envDoubleCollision
        (move_file envDoubleCollision (∅ : Finset FsPath) appIpa
          (some "/processed")).2.2 = true := by
  decide

/-- Claim C3 (amended): when the destination folder already holds a
file with the same name, every move the mover performs targets the
timestamp-suffixed name, which differs from the colliding name — so
the pre-existing same-named file is never overwritten; uniqueness of
the timestamped name itself is not guaranteed (see the
counterexample). -/
theorem c3_collision_appends_timestamp
    (env : Env) (pf : Finset FsPath) (p : FsPath) (d : String)
    (hmk : env.mkdirOk d = true)
    (hsrc : env.fileExists p = true)
    (hcol : env.fileExists ⟨d, p.base⟩ = true) :
    ∀ s q, Effect.fsMove s q ∈ (move_file env pf p (some d)).2.2 →
      q = (⟨d, ⟨p.base.stem ++ "_" ++ env.timestamp, p.base.ext⟩⟩ : FsPath)
      ∧ q ≠ (⟨d, p.base⟩ : FsPath) := by
  have hne : (⟨d, ⟨p.base.stem ++ "_" ++ env.timestamp, p.base.ext⟩⟩ : FsPath)
      ≠ (⟨d, p.base⟩ : FsPath) := by
    intro h
    have h2 : p.base.stem ++ "_" ++ env.timestamp = p.base.stem := by
      have h3 := congrArg (fun x => x.base.stem) h
      simpa using h3
    exact append_underscore_ne _ _ h2
  intro s q hq
  simp only [move_file, hmk, hsrc, hcol, if_true] at hq
  split at hq <;> simp at hq
  · exact ⟨hq.2, hq.2 ▸ hne⟩

/-- Witness for C3: under `envDoubleCollision` the performed move
targets the timestamped destination, not the colliding name. -/
theorem c3_witness :
    Effect.fsMove appIpa tsDest
        ∈ (move_file envDoubleCollision (∅ : Finset FsPath) appIpa
            (some "/processed")).2.2
    ∧ (tsDest = (⟨"/processed",
          ⟨appIpa.base.stem ++ "_" ++ envDoubleCollision.timestamp,
           appIpa.base.ext⟩⟩ : FsPath)
       ∧ tsDest ≠ (⟨"/processed", appIpa.base⟩ : FsPath)) :=
  ⟨by decide,
   c3_collision_appends_timestamp envDoubleCollision (∅ : Finset FsPath)
     appIpa "/processed" (by decide) (by decide) (by decide)
     appIpa tsDest (by decide)⟩

/-- Claim C5, counterexample: the claim says the bundle-identifier
override is appended exactly when a bundle id is configured; but with
`bundle_id` configured as the empty string (which Python treats as
falsy), the flag is not appended. -/
theorem c5_empty_bundle_id_not_appended :
    cfgEmptyBundle.bundle_id.isSome = true
    ∧ "-bundle-id" ∉ buildCmd "/opt/SignTools" cfgEmptyBundle appIpa
        (output_path_of cfgEmptyBundle appIpa) := by
  decide

/-- Claim C5 (amended): every signer invocation spawns exactly the
`buildCmd` argument list with a hard 1800-second timeout; the list
always carries the headless flag, the input path, the profile and the
output path; the extra-arguments string is appended when `sign_args`
is non-empty and the bundle-identifier override when a NON-EMPTY
bundle id is configured; when neither is set the list is exactly the
fixed part. -/
theorem c5_cmd_structure
    (cfg : SignerCfg) (env : Env) (pf : Finset FsPath) (p : FsPath)
    (st : String)
    (hnp : p ∉ pf) (hfind : env.findSignTools = some st) :
    Effect.spawn (buildCmd st cfg p (output_path_of cfg p)) 1800
        ∈ (sign_ipa cfg env pf p).2.2
    ∧ (∀ c t, Effect.spawn c t ∈ (sign_ipa cfg env pf p).2.2 → t = 1800)
    ∧ List.Sublist
        [st, "-headless", "-ipa", p.render, "-profile", cfg.profile,
         "-output", (output_path_of cfg p).render]
        (buildCmd st cfg p (output_path_of cfg p))
    ∧ (cfg.sign_args ≠ "" →
        List.Sublist ["-args", cfg.sign_args]
          (buildCmd st cfg p (output_path_of cfg p)))
    ∧ (∀ b, cfg.bundle_id = some b → b ≠ "" →
        List.Sublist ["-bundle-id", b]
          (buildCmd st cfg p (output_path_of cfg p)))
    ∧ (cfg.sign_args = "" → optStrTruthy cfg.bundle_id = false →
        buildCmd st cfg p (output_path_of cfg p)
          = [st, "-headless", "-ipa", p.render, "-profile", cfg.profile,
             "-output", (output_path_of cfg p).render]) := by
  refine ⟨?_, ?_, ?_, ?_, ?_, ?_⟩
  · exact (sign_ipa_spawn_iff cfg env pf p st hnp hfind _ _).2 ⟨rfl, rfl⟩
  · intro c t h
    exact ((sign_ipa_spawn_iff cfg env pf p st hnp hfind c t).1 h).2
  · simp only [buildCmd]
    exact List.Sublist.trans (List.sublist_append_left _ _)
      (List.sublist_append_left _ _)
  · intro ha
    have h1 : (cfg.sign_args != "") = true := by simpa using ha
    simp only [buildCmd, h1, if_true]
    exact List.Sublist.trans (List.sublist_append_right _ _)
      (List.sublist_append_left _ _)
  · intro b hb hbne
    have h1 : (b != "") = true := by simpa using hbne
    simp only [buildCmd, hb, h1, if_true]
    exact List.sublist_append_right _ _
  · intro ha hb
    rcases hbid : cfg.bundle_id with _ | b
    · simp [buildCmd, ha, hbid]
    · have h2 : (b != "") = false := by
        simpa [optStrTruthy, hbid] using hb
      simp [buildCmd, ha, hbid, h2]

/-- Witness for C5: `cfgFull` (non-empty extra args and bundle id) and
`cfg0` (neither set), both under `env0`. -/
theorem c5_witness :
    Effect.spawn (buildCmd "/opt/SignTools" cfgFull appIpa
        (output_path_of cfgFull appIpa)) 1800
      ∈ (sign_ipa cfgFull env0 (∅ : Finset FsPath) appIpa).2.2
    ∧ List.Sublist
        ["/opt/SignTools", "-headless", "-ipa", appIpa.render, "-profile",
         cfgFull.profile, "-output", (output_path_of cfgFull appIpa).render]
        (buildCmd "/opt/SignTools" cfgFull appIpa
          (output_path_of cfgFull appIpa))
    ∧ List.Sublist ["-args", cfgFull.sign_args]
        (buildCmd "/opt/SignTools" cfgFull appIpa
          (output_path_of cfgFull appIpa))
    ∧ List.Sublist ["-bundle-id", "com.example.app"]
        (buildCmd "/opt/SignTools" cfgFull appIpa
          (output_path_of cfgFull appIpa))
    ∧ buildCmd "/opt/SignTools" cfg0 appIpa (output_path_of cfg0 appIpa)
        = ["/opt/SignTools", "-headless", "-ipa", appIpa.render, "-profile",
           cfg0.profile, "-output", (output_path_of cfg0 appIpa).render] :=
  ⟨(c5_cmd_structure cfgFull env0 (∅ : Finset FsPath) appIpa "/opt/SignTools"
      (by decide) rfl).1,
   (c5_cmd_structure cfgFull env0 (∅ : Finset FsPath) appIpa "/opt/SignTools"
      (by decide) rfl).2.2.1,
   (c5_cmd_structure cfgFull env0 (∅ : Finset FsPath) appIpa "/opt/SignTools"
      (by decide) rfl).2.2.2.1 (by decide),
   (c5_cmd_structure cfgFull env0 (∅ : Finset FsPath) appIpa "/opt/SignTools"
      (by decide) rfl).2.2.2.2.1 "com.example.app" rfl (by decide),
   (c5_cmd_structure cfg0 env0 (∅ : Finset FsPath) appIpa "/opt/SignTools"
      (by decide) rfl).2.2.2.2.2 rfl rfl⟩

end WatchFolder
